import Mathlib

/-!
# Verification of the `ddht` discovery-v5 node core

A shallow embedding, in Lean 4, of the parts of the `ddht` repository that the
specification's claims talk about:

* `ddht/v5/tags.py` — packet tag computation and recovery;
* `ddht/v5_1/network.py` — `Network.find_nodes`, `Network.lookup_enr`,
  `Network.talk`, the `FindNodeMessage` and `TalkRequestMessage` handlers, and
  the recursive find-nodes engine (`common_recursive_find_nodes`,
  `get_unqueried_node_ids`, `do_lookup`);
* `ddht/app.py` — `get_local_enr`.

Node ids are modelled as natural numbers (the 32-byte Python `NodeID` values,
read as big-endian integers); byte strings are `List Nat`.  Fallible Python
code is modelled with `Except`/`Option`; effects (network fetches, database
writes) are modelled by explicit parameters and by explicit result fields so
that theorems can speak about whether they happened.
-/

namespace Ddht

/-- Modelled from the spec: `compute_log_distance` lives in `ddht/kademlia.py`,
which is not among the provided sources.  The spec's glossary defines
`log_distance(a, b)` as `⌊log₂(a XOR b)⌋ + 1`, or `0` when `a = b`, with values
in `0..256`.  `Nat.log2` is the floor of the base-2 logarithm. -/
def compute_log_distance (a b : Nat) : Nat :=
  if a = b then 0 else Nat.log2 (a ^^^ b) + 1

/-- An Ethereum Node Record, reduced to the two fields the network-layer
claims inspect: the node id it advertises and its sequence number. -/
structure ENR where
  node_id : Nat
  seq : Nat
deriving DecidableEq, Repr

/-- The exceptions the modelled network-layer operations can raise. -/
inductive NetworkError where
  /-- Python `TypeError("Must provide at least one distance")`. -/
  | typeError
  /-- `eth_utils.ValidationError` out of `validate_found_nodes_distances`. -/
  | validationError
  /-- `ddht.exceptions.MissingEndpointFields` while resolving an endpoint. -/
  | missingEndpointFields
  /-- `trio.TooSlowError`: a request timed out. -/
  | tooSlow
deriving DecidableEq, Repr

/-- Modelled from the spec: `validate_found_nodes_distances` lives in
`ddht/validation.py`, which is not among the provided sources.  Per spec §4.I
step 6 and §7 ("Validation error — response violates a distance constraint"),
and per its caller `do_lookup` (`network.py:155`), which catches
`ValidationError` propagating out of `network.find_nodes`, the validator
raises when some ENR of the response sits at a log-distance from the queried
node that is not among the requested distances (distance 0 standing for the
queried node's own id).  This boolean is the validator's success condition. -/
def found_nodes_distances_valid (enrs : List ENR) (node_id : Nat)
    (distances : List Nat) : Bool :=
  enrs.all fun enr => decide (compute_log_distance node_id enr.node_id ∈ distances)

/-- `endpoint = None` makes the network resolve one via
`endpoint_for_node_id`; that resolution is an effect we model as a given
`Except` outcome. -/
def resolve_endpoint (endpoint : Option Nat) (resolve : Except NetworkError Nat) :
    Except NetworkError Nat :=
  match endpoint with
  | some ep => .ok ep
  | none => resolve

/-- `Network.find_nodes` (`network.py:451-472`).  `responses` is the list of
NODES response messages obtained from the client, each carrying its list of
ENRs.  The source first raises `TypeError` on an empty `distances`, then
resolves the endpoint when none was passed, then runs
`validate_found_nodes_distances` over every response (raising on the first
invalid one), and finally returns the concatenation of all response ENRs. -/
def find_nodes (node_id : Nat) (distances : List Nat) (endpoint : Option Nat)
    (resolve : Except NetworkError Nat) (responses : List (List ENR)) :
    Except NetworkError (List ENR) :=
  if distances.isEmpty then
    .error .typeError
  else
    (resolve_endpoint endpoint resolve).bind fun _ =>
      if responses.all
          (fun enrs => found_nodes_distances_valid enrs node_id distances) then
        .ok responses.flatten
      else
        .error .validationError

/-- The entry checks of `common_network_stream_find_nodes`
(`network.py:280-293`): raise `TypeError` when `distances` is empty, and only
afterwards resolve a missing endpoint.  The streaming body that follows is not
needed by the claims; the function returns the endpoint the stream will use. -/
def stream_find_nodes_setup (distances : List Nat) (endpoint : Option Nat)
    (resolve : Except NetworkError Nat) : Except NetworkError Nat :=
  if distances.isEmpty then
    .error .typeError
  else
    resolve_endpoint endpoint resolve

/-! ## `Network.lookup_enr` and `Network._fetch_enr` (`network.py:505-547`) -/

/-- The state and effect outcomes `lookup_enr` and `_fetch_enr` interact with.
`db` is `enr_db.get_enr` (`none` = `KeyError`); `recursive_endpoint` is the
endpoint obtained from the recursive-lookup fallback (`none` when the target
was never streamed, which the source turns into a `KeyError`); `resolve` is
the outcome of `endpoint_for_node_id` inside `find_nodes` when it is handed no
endpoint; `responses` are the NODES responses to the distance-0 query. -/
structure LookupEnv where
  local_node_id : Nat
  db : Nat → Option ENR
  recursive_endpoint : Option Nat
  resolve : Except NetworkError Nat
  responses : List (List ENR)

/-- Exceptions surfacing from `lookup_enr`. -/
inductive LookupError where
  /-- `Exception("Cannot lookup local ENR: ...")` (`network.py:508-509`). -/
  | cannotLookupLocal
  /-- `KeyError("Could not find ENR: ...")` (`network.py:525`). -/
  | keyErrorNotFound
  /-- `EmptyFindNodesResponse` out of `_fetch_enr` (`network.py:542-543`). -/
  | emptyFindNodesResponse
  /-- any `NetworkError` propagating out of the distance-0 `find_nodes`. -/
  | net (e : NetworkError)
deriving DecidableEq, Repr

/-- Modelled from the in-source docstring of `_fetch_enr` (`network.py:545-546`):
`reduce_enrs` lives in `ddht/_utils.py`, which is not among the provided
sources; "Assuming we're given enrs for a single node, this reduce returns the
enr for that node with the highest sequence number". -/
def highest_seq_enr (e : ENR) (rest : List ENR) : ENR :=
  rest.foldl (fun best enr => if best.seq < enr.seq then enr else best) e

/-- `Network._fetch_enr` (`network.py:538-547`): a distance-0 `find_nodes`,
`EmptyFindNodesResponse` when it returns nothing, otherwise the returned ENR
with the highest sequence number. -/
def _fetch_enr (env : LookupEnv) (node_id : Nat) (endpoint : Option Nat) :
    Except LookupError ENR :=
  match find_nodes node_id [0] endpoint env.resolve env.responses with
  | .error e => .error (.net e)
  | .ok [] => .error .emptyFindNodesResponse
  | .ok (e :: rest) => .ok (highest_seq_enr e rest)

/-- What one `lookup_enr` call produced: the ENR it returned, whether a
network fetch (`_fetch_enr`) was performed, and the ENR passed to
`enr_db.set_enr` if any (the source ignores an `OldSequenceNumber` rejection
of that write). -/
structure LookupOutcome where
  enr : ENR
  fetched : Bool
  db_write : Option ENR
deriving DecidableEq, Repr

/-- `Network.lookup_enr` (`network.py:505-536`).  Raise on the local node id;
on a database hit with a sequence number at least `enr_seq` return the cached
record without touching the network; otherwise fetch via `_fetch_enr` (on a
database miss with no endpoint given, first discover one through
`recursive_find_nodes`, raising `KeyError` when that fails), store the fetched
ENR, and return it. -/
def lookup_enr (env : LookupEnv) (node_id : Nat) (enr_seq : Nat)
    (endpoint : Option Nat) : Except LookupError LookupOutcome :=
  if node_id = env.local_node_id then
    .error .cannotLookupLocal
  else
    let fetch_path (ep : Option Nat) : Except LookupError LookupOutcome :=
      (_fetch_enr env node_id ep).bind fun enr =>
        .ok { enr := enr, fetched := true, db_write := some enr }
    match env.db node_id with
    | none =>
      match endpoint with
      | some ep => fetch_path (some ep)
      | none =>
        match env.recursive_endpoint with
        | some ep => fetch_path (some ep)
        | none => .error .keyErrorNotFound
    | some enr =>
      if enr_seq ≤ enr.seq then
        .ok { enr := enr, fetched := false, db_write := none }
      else
        fetch_path endpoint

/-! ## `Network.talk` and the unhandled-TALKREQ handler -/

/-- Errors out of `Network.talk`. -/
inductive TalkError where
  /-- `ProtocolNotSupported` (`network.py:501-502`). -/
  | protocolNotSupported
  /-- an error while resolving the endpoint or awaiting the response. -/
  | net (e : NetworkError)
deriving DecidableEq, Repr

/-- `Network.talk` (`network.py:486-503`): resolve the endpoint when none is
given, send the TALKREQ, and raise `ProtocolNotSupported` exactly when the
TALKRESP payload is empty, returning the payload otherwise.
`response_payload` is the payload of the TALKRESP message the client
received. -/
def talk (endpoint : Option Nat) (resolve : Except NetworkError Nat)
    (response_payload : List Nat) : Except TalkError (List Nat) :=
  match resolve_endpoint endpoint resolve with
  | .error e => .error (.net e)
  | .ok _ =>
    if response_payload.isEmpty then
      .error .protocolNotSupported
    else
      .ok response_payload

/-- `Network._handle_unhandled_talk_requests` (`network.py:793-802`): for an
inbound TALKREQ whose protocol id is not among the registered talk protocols,
send a TALKRESP with empty payload; when a handler is registered, this task
sends nothing (`none`). -/
def handle_unhandled_talk_request (registered_protocols : List (List Nat))
    (protocol : List Nat) : Option (List Nat) :=
  if registered_protocols.contains protocol then
    none
  else
    some []

/-! ## The FINDNODE request handler (`Network._serve_find_nodes`) -/

/-- The node state `_serve_find_nodes` reads: the routing table
(`num_buckets`, which is 256 in deployment, and `get_nodes_at_log_distance`),
the node's own current ENR (`enr_manager.enr`) and the ENR database restricted
to routing-table members (`get_enr`, total here because every routing-table
entry was stored at bonding time). -/
structure ServeState where
  num_buckets : Nat
  nodes_at_log_distance : Nat → List Nat
  own_enr : ENR
  enr_db : Nat → ENR

/-- `Network._serve_find_nodes` (`network.py:742-791`), one request.  The
source ignores (no response, no state change) a request whose distances carry
a duplicate, are empty, or contain a value above `num_buckets`; otherwise it
answers with, for each requested distance, the node's own ENR (distance 0) or
the ENRs of every node id in the bucket at that log-distance.  (The source
iterates over `set(distances)`; on a valid — duplicate-free — request that set
has exactly the elements of the list, so the list order is used here.) -/
def serve_find_nodes (st : ServeState) (distances : List Nat) :
    Option (List ENR) :=
  if ¬ distances.Nodup then
    none
  else if distances.isEmpty then
    none
  else if distances.any (fun d => decide (st.num_buckets < d)) then
    none
  else
    some <| (distances.map fun d =>
      if d = 0 then
        [st.own_enr]
      else
        (st.nodes_at_log_distance d).map st.enr_db).flatten

/-! ## The recursive find-nodes engine (`common_recursive_find_nodes`) -/

/-- Modelled from the spec: `iter_closest_nodes` lives in `ddht/kademlia.py`,
which is not among the provided sources.  Per spec §4.C (`iter_closest` "yields
every known NodeID in ascending XOR distance to `target`") and §4.I step 2
(the known nodes are `received ∪ routing_table`), it enumerates the union of
the routing-table entries and the extra `received` set, each node once,
ordered by ascending XOR distance to the target. -/
def iter_closest_nodes (target : Nat) (routing_table received : List Nat) :
    List Nat :=
  ((routing_table ++ received).dedup).insertionSort
    (fun a b => a ^^^ target ≤ b ^^^ target)

/-- `get_unqueried_node_ids` (`network.py:115-139`): all known nodes by
closeness to the target, with the unresponsive ones removed, cut to the
closest `bucket_size`, with the already-queried and in-flight ones removed,
cut to at most three. -/
def get_unqueried_node_ids (bucket_size target : Nat)
    (routing_table received unresponsive queried in_flight : List Nat) :
    List Nat :=
  let candidates := iter_closest_nodes target routing_table received
  let responsive_candidates :=
    candidates.filter fun node_id => decide (node_id ∉ unresponsive)
  let closest_k_candidates := responsive_candidates.take bucket_size
  let closest_k_unqueried := closest_k_candidates.filter fun node_id =>
    decide (¬ (node_id ∈ queried ∨ node_id ∈ in_flight))
  closest_k_unqueried.take 3

/-- The batch of C4's sentence, written out as the claim words it: order all
known nodes (the received set united with the routing table) by ascending XOR
distance to the target, remove nodes in the unresponsive set, take the
closest `bucket_size` of the remainder, remove those already queried or in
flight, and take up to three of what is left. -/
def recursive_lookup_batch_spec (bucket_size target : Nat)
    (routing_table received unresponsive queried in_flight : List Nat) :
    List Nat :=
  let known := (received ++ routing_table).dedup
  let ordered := known.insertionSort fun a b => a ^^^ target ≤ b ^^^ target
  let responsive := ordered.filter fun node_id => decide (node_id ∉ unresponsive)
  let closest := responsive.take bucket_size
  let left := closest.filter fun node_id =>
    decide (node_id ∉ queried ∧ node_id ∉ in_flight)
  left.take 3

/-- The ways a `do_lookup` call for one peer can end, as far as the
unresponsive bookkeeping is concerned (`network.py:141-163`). -/
inductive LookupEvent where
  /-- the lookup failed with `trio.TooSlowError`, `MissingEndpointFields` or
  `ValidationError` at time `t` (`network.py:155-158`). -/
  | fail (node_id : Nat) (t : Nat)
  /-- the lookup was cancelled — `trio.Cancelled` (`network.py:159-163`). -/
  | cancel (node_id : Nat)
deriving DecidableEq, Repr

/-- The unresponsive bookkeeping of one `common_recursive_find_nodes`
invocation: the invocation-local `unresponsive_node_ids` set and the shared
`UNRESPONSIVE_CACHE` (an LRU map node id ↦ last-unresponsive timestamp,
modelled as an association list whose first entry for a key is current). -/
structure RFNState where
  unresponsive : List Nat
  cache : List (Nat × Nat)
deriving DecidableEq, Repr

/-- Look a node id up in the shared cache. -/
def cache_lookup (cache : List (Nat × Nat)) (node_id : Nat) : Option Nat :=
  (cache.find? fun p => decide (p.1 = node_id)).map Prod.snd

/-- `unresponsive_cache[node_id] = t`: (re)bind the key. -/
def cache_set (cache : List (Nat × Nat)) (node_id t : Nat) :
    List (Nat × Nat) :=
  (node_id, t) :: cache.filter fun p => decide (p.1 ≠ node_id)

/-- `network.py:97-105`: the set starts as `{local_node_id}` plus every node
of the shared cache whose timestamp is less than 300 seconds old at the time
the invocation starts. -/
def rfn_init (local_node_id now : Nat) (cache : List (Nat × Nat)) : RFNState :=
  { unresponsive :=
      local_node_id ::
        (cache.filter fun p => decide (now - p.2 < 300)).map Prod.fst
  , cache := cache }

/-- `network.py:153-163`: a failed lookup adds the peer to the local set and
stamps it in the shared cache; a cancelled lookup adds it to the local set
only. -/
def rfn_step (s : RFNState) : LookupEvent → RFNState
  | .fail node_id t =>
    { unresponsive := node_id :: s.unresponsive
    , cache := cache_set s.cache node_id t }
  | .cancel node_id =>
    { unresponsive := node_id :: s.unresponsive, cache := s.cache }

/-- The unresponsive bookkeeping after an invocation that started at `now`
with shared cache `cache0` and whose lookups ended as `events` (in order). -/
def rfn_run (local_node_id now : Nat) (cache0 : List (Nat × Nat))
    (events : List LookupEvent) : RFNState :=
  events.foldl rfn_step (rfn_init local_node_id now cache0)

/-- The timestamp of the last failure of `node_id` among `events`, defaulting
to `dflt`; this is what the shared cache ends up holding for `node_id`. -/
def last_fail_time (node_id : Nat) : List LookupEvent → Option Nat → Option Nat
  | [], dflt => dflt
  | .fail m t :: events, dflt =>
    last_fail_time node_id events (if m = node_id then some t else dflt)
  | .cancel _ :: events, dflt => last_fail_time node_id events dflt

/-! ## `get_local_enr` (`ddht/app.py:54-85`)

ENR keys and values are byte strings (`List Nat`); `kv` association lists
model Python dicts (first entry for a key is current — the `ENR` kv mapping
has unique keys).  `sign` stands for `to_signed_enr`'s signing of the
(sequence number, pairs) content with the local private key. -/

/-- A signed ENR as `app.py` handles it: sequence number, key-value pairs and
signature. -/
structure SignedENR where
  seq : Nat
  kv : List (List Nat × List Nat)
  sig : List Nat
deriving DecidableEq, Repr

/-- Dict lookup on a kv association list. -/
def kv_lookup (kv : List (List Nat × List Nat)) (k : List Nat) :
    Option (List Nat) :=
  (kv.find? fun p => decide (p.1 = k)).map Prod.snd

/-- `eth_utils.toolz.merge(dict(base), dict(minimal))`: base keys in base
order taking minimal's value when minimal also binds the key, then minimal's
keys that base lacks. -/
def dict_merge (base minimal : List (List Nat × List Nat)) :
    List (List Nat × List Nat) :=
  (base.map fun p =>
      match kv_lookup minimal p.1 with
      | some v => (p.1, v)
      | none => p) ++
    minimal.filter fun p => decide (kv_lookup base p.1 = none)

/-- `any(key not in base_enr or base_enr[key] != value for key, value in
minimal_enr.items())` (`app.py:74-76`). -/
def needs_update (base minimal : List (List Nat × List Nat)) : Bool :=
  minimal.any fun p =>
    match kv_lookup base p.1 with
    | none => true
    | some v => decide (v ≠ p.2)

/-- `b"id"`. -/
def key_id : List Nat := [105, 100]

/-- `b"secp256k1"`. -/
def key_secp256k1 : List Nat := [115, 101, 99, 112, 50, 53, 54, 107, 49]

/-- `b"udp"`. -/
def key_udp : List Nat := [117, 100, 112]

/-- The kv pairs of the minimal ENR (`app.py:57-64`): `{id: b"v4",
secp256k1: <compressed local pubkey>, udp: <configured port>}`. -/
def minimal_kv (pubkey port : List Nat) : List (List Nat × List Nat) :=
  [(key_id, [118, 52]), (key_secp256k1, pubkey), (key_udp, port)]

/-- `get_local_enr` (`app.py:54-85`).  `base` is the database record for the
local node id (`none` = `KeyError`).  With no stored record, return the
minimal ENR signed at sequence number 1.  With a stored record that already
carries every minimal pair unchanged, return it verbatim.  Otherwise return a
newly signed ENR at the stored sequence number plus one whose pairs merge the
stored and the minimal pairs, minimal winning on conflict. -/
def get_local_enr (sign : Nat → List (List Nat × List Nat) → List Nat)
    (pubkey port : List Nat) (base : Option SignedENR) : SignedENR :=
  let mkv := minimal_kv pubkey port
  let minimal : SignedENR := { seq := 1, kv := mkv, sig := sign 1 mkv }
  match base with
  | none => minimal
  | some base_enr =>
    if needs_update base_enr.kv mkv then
      let merged := dict_merge base_enr.kv mkv
      { seq := base_enr.seq + 1, kv := merged
      , sig := sign (base_enr.seq + 1) merged }
    else
      base_enr

/-! ## `ddht/v5/tags.py`

Here node ids appear in their wire form, 32-byte strings, modelled as
`List Nat`.  `sha256` is the hash function from `hashlib`; the claims need
nothing about it beyond the length of its digests, so it is a parameter. -/

/-- `ddht._utils.sxor` (imported by `tags.py`; byte-wise XOR of two byte
strings — the source raises `ValueError` on unequal lengths, and both callers
below apply it to two 32-byte strings). -/
def sxor (s1 s2 : List Nat) : List Nat :=
  List.zipWith Nat.xor s1 s2

/-- `compute_tag` (`tags.py:9-13`): `sha256(destination_node_id) XOR
source_node_id`. -/
def compute_tag (sha256 : List Nat → List Nat)
    (source_node_id destination_node_id : List Nat) : List Nat :=
  sxor (sha256 destination_node_id) source_node_id

/-- `recover_source_id_from_tag` (`tags.py:16-20`): XOR the tag with
`sha256(destination_node_id)` again. -/
def recover_source_id_from_tag (sha256 : List Nat → List Nat)
    (tag destination_node_id : List Nat) : List Nat :=
  sxor tag (sha256 destination_node_id)

/-! ## Theorems -/

/-- XORing twice with the same byte string is the identity (on byte strings of
the same length). -/
theorem sxor_sxor_cancel (h s : List Nat) (hlen : h.length = s.length) :
    sxor (sxor h s) h = s := by
  induction h generalizing s with
  | nil =>
    cases s with
    | nil => rfl
    | cons b u => simp at hlen
  | cons a t ih =>
    cases s with
    | nil => simp at hlen
    | cons b u =>
      simp only [sxor, List.zipWith_cons_cons]
      refine congrArg₂ List.cons ?_ (ih u (by simpa using hlen))
      show (a ^^^ b) ^^^ a = b
      rw [Nat.xor_comm a b]
      exact Nat.xor_cancel_right a b

/-- C7: for every pair of 32-byte node ids `(src, dst)`,
`recover_source_id_from_tag (compute_tag src dst) dst = src`: the tag
`sha256(dst) XOR src` is inverted exactly by XORing it again with
`sha256(dst)`. -/
theorem tag_round_trip (sha256 : List Nat → List Nat)
    (src dst : List Nat) (hsrc : src.length = 32)
    (hsha : (sha256 dst).length = 32) :
    recover_source_id_from_tag sha256 (compute_tag sha256 src dst) dst = src := by
  unfold recover_source_id_from_tag compute_tag
  exact sxor_sxor_cancel (sha256 dst) src (by rw [hsrc, hsha])

/-- Witness for C7 at a concrete hash function and concrete 32-byte ids. -/
theorem tag_round_trip_witness :
    recover_source_id_from_tag (fun _ => List.range 32)
      (compute_tag (fun _ => List.range 32) (List.replicate 32 5) [7]) [7] =
      List.replicate 32 5 :=
  tag_round_trip (fun _ => List.range 32) (List.replicate 32 5) [7]
    (by simp) (by simp)

/-- C9: `Network.find_nodes` and `common_network_stream_find_nodes` raise
`TypeError` on an empty distances collection, whatever the endpoint, the
endpoint-resolution outcome and the network responses — the check precedes
endpoint resolution and any network interaction, so no state is touched. -/
theorem find_nodes_empty_distances_type_error (node_id : Nat)
    (endpoint : Option Nat) (resolve : Except NetworkError Nat)
    (responses : List (List ENR)) :
    find_nodes node_id [] endpoint resolve responses = .error .typeError ∧
      stream_find_nodes_setup [] endpoint resolve = .error .typeError := by
  exact ⟨rfl, rfl⟩

/-- C10: `Network.lookup_enr` called with the local node id raises, whatever
the database, the recursive-lookup outcome and the network hold — the check
precedes the database read and any network interaction, so the local node's
own ENR can never be obtained through `lookup_enr`. -/
theorem lookup_enr_local_raises (local_node_id : Nat) (db : Nat → Option ENR)
    (recursive_endpoint : Option Nat) (resolve : Except NetworkError Nat)
    (responses : List (List ENR)) (enr_seq : Nat) (endpoint : Option Nat) :
    lookup_enr ⟨local_node_id, db, recursive_endpoint, resolve, responses⟩
        local_node_id enr_seq endpoint = .error .cannotLookupLocal := by
  simp [lookup_enr]

/-- C8: `Network.talk` raises `ProtocolNotSupported` iff the TALKRESP payload
is empty (returning the payload otherwise), and the node answers an inbound
TALKREQ with an empty-payload TALKRESP exactly when no handler is registered
for its protocol id. -/
theorem talk_empty_payload_spec :
    (∀ (endpoint : Option Nat) (resolve : Except NetworkError Nat)
        (ep : Nat) (payload : List Nat),
      resolve_endpoint endpoint resolve = .ok ep →
        ((talk endpoint resolve payload = .error .protocolNotSupported ↔
            payload = []) ∧
          (payload ≠ [] → talk endpoint resolve payload = .ok payload))) ∧
      ∀ (registered : List (List Nat)) (protocol : List Nat),
        handle_unhandled_talk_request registered protocol =
          if protocol ∈ registered then none else some [] := by
  constructor
  · intro endpoint resolve ep payload hres
    unfold talk
    rw [hres]
    constructor
    · constructor
      · intro h
        by_cases hp : payload.isEmpty
        · exact List.isEmpty_iff.mp hp
        · simp [hp] at h
      · intro h
        subst h
        rfl
    · intro h
      have hp : payload.isEmpty = false := by
        simpa using List.isEmpty_iff.not.mpr h
      simp [hp]
  · intro registered protocol
    unfold handle_unhandled_talk_request
    by_cases hmem : protocol ∈ registered
    · simp [hmem, List.elem_iff.mpr hmem]
    · have : registered.contains protocol = false := by
        simpa using (List.elem_iff.not.mpr hmem)
      simp [hmem, this]

/-- Witness for C8: an empty payload raises, a non-empty one is returned, an
unregistered protocol is answered with an empty payload. -/
theorem talk_empty_payload_spec_witness :
    (talk (some 0) (.ok 0) [] = .error .protocolNotSupported ∧
        talk (some 0) (.ok 0) [1] = .ok [1]) ∧
      handle_unhandled_talk_request [[2]] [1] = some [] := by
  refine ⟨⟨?_, ?_⟩, ?_⟩
  · exact (talk_empty_payload_spec.1 (some 0) (.ok 0) 0 [] rfl).1.mpr rfl
  · exact (talk_empty_payload_spec.1 (some 0) (.ok 0) 0 [1] rfl).2 (by decide)
  · rw [talk_empty_payload_spec.2 [[2]] [1]]
    simp

/-- C2: the FINDNODE handler answers iff the request's distances are
non-empty, duplicate-free and all within `[0, 256]` (the routing table's
`num_buckets`); an invalid request receives no response (and the handler
changes no state).  A valid response carries the node's own current ENR for
distance 0 and, for every other requested distance `d`, the ENR of every node
id in the routing-table bucket at log-distance `d`. -/
theorem serve_find_nodes_spec (st : ServeState) (ds : List Nat)
    (h256 : st.num_buckets = 256) :
    ((serve_find_nodes st ds).isSome ↔
        ds ≠ [] ∧ ds.Nodup ∧ ∀ d ∈ ds, d ≤ 256) ∧
      ∀ resp, serve_find_nodes st ds = some resp →
        (0 ∈ ds → st.own_enr ∈ resp) ∧
          ∀ d ∈ ds, d ≠ 0 → ∀ nid ∈ st.nodes_at_log_distance d,
            st.enr_db nid ∈ resp := by
  have hserve : serve_find_nodes st ds =
      (if ¬ ds.Nodup then none
       else if ds.isEmpty then none
       else if ds.any (fun d => decide (256 < d)) then none
       else some ((ds.map fun d =>
         if d = 0 then [st.own_enr]
         else (st.nodes_at_log_distance d).map st.enr_db).flatten)) := by
    unfold serve_find_nodes
    rw [h256]
  constructor
  · rw [hserve]
    by_cases h1 : ds.Nodup <;>
      by_cases h2 : ds.isEmpty = true <;>
        by_cases h3 : (ds.any fun d => decide (256 < d)) = true <;>
          simp_all [List.isEmpty_iff, List.any_eq_true, not_lt]
  · intro resp hresp
    rw [hserve] at hresp
    split_ifs at hresp
    rw [Option.some.injEq] at hresp
    subst hresp
    constructor
    · intro h0
      refine List.mem_flatten.mpr ⟨[st.own_enr], ?_, by simp⟩
      exact List.mem_map.mpr ⟨0, h0, by simp⟩
    · intro d hd hd0 nid hnid
      refine List.mem_flatten.mpr
        ⟨(st.nodes_at_log_distance d).map st.enr_db, ?_,
          List.mem_map_of_mem st.enr_db hnid⟩
      exact List.mem_map.mpr ⟨d, hd, by simp [hd0]⟩

/-- Witness for C2: a concrete valid request is answered, and the response
carries the node's own ENR (distance 0) and the database record of the one
node in the bucket at distance 1. -/
theorem serve_find_nodes_spec_witness :
    (serve_find_nodes
        ⟨256, fun d => if d = 1 then [77] else [], ⟨9, 1⟩, fun nid => ⟨nid, 2⟩⟩
        [0, 1]).isSome = true ∧
      ENR.mk 9 1 ∈ [ENR.mk 9 1, ENR.mk 77 2] ∧
      ENR.mk 77 2 ∈ [ENR.mk 9 1, ENR.mk 77 2] := by
  refine ⟨?_, ?_, ?_⟩
  · exact (serve_find_nodes_spec
      ⟨256, fun d => if d = 1 then [77] else [], ⟨9, 1⟩, fun nid => ⟨nid, 2⟩⟩
      [0, 1] rfl).1.mpr ⟨by decide, by decide, by decide⟩
  · exact ((serve_find_nodes_spec
      ⟨256, fun d => if d = 1 then [77] else [], ⟨9, 1⟩, fun nid => ⟨nid, 2⟩⟩
      [0, 1] rfl).2 [ENR.mk 9 1, ENR.mk 77 2] (by decide)).1 (by decide)
  · exact ((serve_find_nodes_spec
      ⟨256, fun d => if d = 1 then [77] else [], ⟨9, 1⟩, fun nid => ⟨nid, 2⟩⟩
      [0, 1] rfl).2 [ENR.mk 9 1, ENR.mk 77 2] (by decide)).2
      1 (by decide) (by decide) 77 (by decide)

/-- Evaluation helper: the log-distance between ids 0 and 1 is 1. -/
theorem compute_log_distance_zero_one : compute_log_distance 0 1 = 1 := by
  simp [compute_log_distance, Nat.log2]

/-- Evaluation helper: the log-distance between ids 0 and 2 is 2. -/
theorem compute_log_distance_zero_two : compute_log_distance 0 2 = 2 := by
  rw [compute_log_distance]
  norm_num
  rw [Nat.log2]
  norm_num
  rw [Nat.log2]
  norm_num

/-- C1 counterexample: querying node 0 for distances `[1]`, a response
carrying the in-range ENR of node 1 together with the out-of-range ENR of
node 2 (log-distance 2) makes `find_nodes` raise `ValidationError`; the
violating ENR is not discarded in favour of returning the valid one. -/
theorem find_nodes_no_discard_counterexample :
    find_nodes 0 [1] (some 0) (.ok 0) [[⟨1, 0⟩, ⟨2, 0⟩]] =
        .error .validationError ∧
      find_nodes 0 [1] (some 0) (.ok 0) [[⟨1, 0⟩, ⟨2, 0⟩]] ≠
        .ok [⟨1, 0⟩] := by
  have h : find_nodes 0 [1] (some 0) (.ok 0) [[⟨1, 0⟩, ⟨2, 0⟩]] =
      .error .validationError := by
    unfold find_nodes resolve_endpoint found_nodes_distances_valid
    simp [compute_log_distance_zero_two, Except.bind]
  exact ⟨h, by rw [h]; intro hc; cases hc⟩

/-- C1 (amended): when `Network.find_nodes` returns, every returned ENR
satisfies `log_distance(node_id, enr.node_id) ∈ distances`; but a response
ENR violating this constraint makes the whole call raise `ValidationError` —
the violator is not discarded from the result. -/
theorem find_nodes_distance_spec (node_id : Nat) (distances : List Nat)
    (endpoint : Option Nat) (resolve : Except NetworkError Nat)
    (responses : List (List ENR)) :
    (∀ enrs,
        find_nodes node_id distances endpoint resolve responses = .ok enrs →
          ∀ enr ∈ enrs, compute_log_distance node_id enr.node_id ∈ distances) ∧
      ((∃ resp ∈ responses, ∃ enr ∈ resp,
            compute_log_distance node_id enr.node_id ∉ distances) →
        distances ≠ [] →
        ∀ ep, resolve_endpoint endpoint resolve = .ok ep →
          find_nodes node_id distances endpoint resolve responses =
            .error .validationError) := by
  constructor
  · intro enrs hok enr henr
    unfold find_nodes at hok
    by_cases hne : distances.isEmpty
    · simp [hne] at hok
    · rw [if_neg (by simpa using hne)] at hok
      cases hres : resolve_endpoint endpoint resolve with
      | error e => rw [hres] at hok; cases hok
      | ok ep =>
        rw [hres] at hok
        by_cases hall : responses.all
            (fun r => found_nodes_distances_valid r node_id distances)
        · rw [show Except.bind (Except.ok ep) _ = _ from rfl] at hok
          simp only [Except.bind, if_pos hall, Except.ok.injEq] at hok
          subst hok
          obtain ⟨resp, hresp, henr'⟩ := List.mem_flatten.mp henr
          have hv := List.all_eq_true.mp hall resp hresp
          have hv' := List.all_eq_true.mp hv enr henr'
          exact of_decide_eq_true hv'
        · simp only [Except.bind, if_neg hall] at hok
          cases hok
  · rintro ⟨resp, hresp, enr, henr, hviol⟩ hne ep hres
    unfold find_nodes
    rw [if_neg (by simpa [List.isEmpty_iff] using hne), hres]
    have hall : responses.all
        (fun r => found_nodes_distances_valid r node_id distances) = false := by
      refine List.all_eq_false.mpr ⟨resp, hresp, ?_⟩
      unfold found_nodes_distances_valid
      intro hcontra
      exact hviol (of_decide_eq_true (List.all_eq_true.mp hcontra enr henr))
    simp only [Except.bind, hall]
    simp

/-- Witness for C1's amended claim: on a successful call every returned ENR's
distance is among the requested ones, and a concrete violating response makes
the call raise `ValidationError`. -/
theorem find_nodes_distance_spec_witness :
    compute_log_distance 0 (ENR.mk 1 5).node_id ∈ [1] ∧
      find_nodes 0 [1] (some 0) (.ok 0) [[⟨1, 5⟩], [⟨2, 5⟩]] =
        .error .validationError := by
  constructor
  · refine (find_nodes_distance_spec 0 [1] (some 0) (.ok 0) [[⟨1, 5⟩]]).1
      [⟨1, 5⟩] ?_ ⟨1, 5⟩ (by simp)
    unfold find_nodes resolve_endpoint found_nodes_distances_valid
    simp [compute_log_distance_zero_one, Except.bind]
  · refine (find_nodes_distance_spec 0 [1] (some 0) (.ok 0)
      [[⟨1, 5⟩], [⟨2, 5⟩]]).2
      ⟨[⟨2, 5⟩], by simp, ⟨2, 5⟩, by simp, ?_⟩ (by decide) 0 rfl
    simp [compute_log_distance_zero_two]

/-- C3: for a node id other than the local one, `lookup_enr` returns the
cached ENR with no network fetch and no database write when the database's
record has a sequence number at least `enr_seq`; otherwise it fetches through
the distance-0 `find_nodes` of `_fetch_enr` — using the endpoint it was given,
or on a database miss with no endpoint the one discovered by the recursive
lookup — stores the fetched ENR in the database, and returns it. -/
theorem lookup_enr_cache_spec (env : LookupEnv) (node_id enr_seq : Nat)
    (endpoint : Option Nat) (hne : node_id ≠ env.local_node_id) :
    (∀ enr, env.db node_id = some enr → enr_seq ≤ enr.seq →
        lookup_enr env node_id enr_seq endpoint =
          .ok ⟨enr, false, none⟩) ∧
      (∀ enr fetched, env.db node_id = some enr → enr.seq < enr_seq →
          _fetch_enr env node_id endpoint = .ok fetched →
          lookup_enr env node_id enr_seq endpoint =
            .ok ⟨fetched, true, some fetched⟩) ∧
      ∀ ep fetched, env.db node_id = none →
          endpoint.or env.recursive_endpoint = some ep →
          _fetch_enr env node_id (some ep) = .ok fetched →
          lookup_enr env node_id enr_seq endpoint =
            .ok ⟨fetched, true, some fetched⟩ := by
  refine ⟨?_, ?_, ?_⟩
  · intro enr hdb hseq
    unfold lookup_enr
    rw [if_neg hne, hdb]
    simp only [if_pos hseq]
  · intro enr fetched hdb hseq hfetch
    unfold lookup_enr
    rw [if_neg hne, hdb]
    simp only [if_neg (by omega : ¬ enr_seq ≤ enr.seq), hfetch, Except.bind]
  · intro ep fetched hdb hor hfetch
    unfold lookup_enr
    rw [if_neg hne, hdb]
    cases endpoint with
    | some e =>
      simp only [Option.or] at hor
      rw [Option.some.injEq] at hor
      subst hor
      simp only [hfetch, Except.bind]
    | none =>
      simp only [Option.or] at hor
      rw [hor]
      simp only [hfetch, Except.bind]

/-- Witness for C3: a concrete environment whose database holds an ENR for
node 5 at sequence 3; a lookup asking for sequence 2 returns the cached record
with no fetch and no write, and a lookup asking for sequence 9 returns the
fetched record, stored. -/
theorem lookup_enr_cache_spec_witness :
    lookup_enr ⟨0, (fun n => if n = 5 then some ⟨5, 3⟩ else none), none,
        .ok 0, [[⟨5, 7⟩]]⟩ 5 2 none = .ok ⟨⟨5, 3⟩, false, none⟩ ∧
      lookup_enr ⟨0, (fun n => if n = 5 then some ⟨5, 3⟩ else none), none,
        .ok 0, [[⟨5, 7⟩]]⟩ 5 9 none = .ok ⟨⟨5, 7⟩, true, some ⟨5, 7⟩⟩ := by
  constructor
  · exact (lookup_enr_cache_spec
      ⟨0, (fun n => if n = 5 then some ⟨5, 3⟩ else none), none,
        .ok 0, [[⟨5, 7⟩]]⟩ 5 2 none (by decide)).1 ⟨5, 3⟩ rfl (by decide)
  · refine (lookup_enr_cache_spec
      ⟨0, (fun n => if n = 5 then some ⟨5, 3⟩ else none), none,
        .ok 0, [[⟨5, 7⟩]]⟩ 5 9 none (by decide)).2.1 ⟨5, 3⟩ ⟨5, 7⟩ rfl
      (by decide) ?_
    unfold _fetch_enr find_nodes resolve_endpoint found_nodes_distances_valid
    simp [compute_log_distance, highest_seq_enr, Except.bind]

/-- Enumerating the known nodes in ascending XOR distance to the target gives
the same list whichever way the union of the routing table and the received
set is written: XOR distance to a fixed target is injective, so the ordering
is strict and the sorted enumeration of a set is unique. -/
theorem iter_closest_nodes_comm (target : Nat) (l₁ l₂ : List Nat) :
    ((l₁ ++ l₂).dedup).insertionSort (fun a b => a ^^^ target ≤ b ^^^ target) =
      ((l₂ ++ l₁).dedup).insertionSort
        (fun a b => a ^^^ target ≤ b ^^^ target) := by
  set r : Nat → Nat → Prop := fun a b => a ^^^ target ≤ b ^^^ target with hr
  haveI : IsTotal Nat r := ⟨fun a b => Nat.le_total _ _⟩
  haveI : IsTrans Nat r := ⟨fun a b c => Nat.le_trans⟩
  haveI : IsAntisymm Nat r := ⟨fun a b h1 h2 => by
    have hxy : a ^^^ target = b ^^^ target := Nat.le_antisymm h1 h2
    have := congrArg (fun x => x ^^^ target) hxy
    simpa [Nat.xor_cancel_right] using this⟩
  have hperm : List.Perm ((l₁ ++ l₂).dedup) ((l₂ ++ l₁).dedup) :=
    List.perm_of_nodup_nodup_toFinset_eq (List.nodup_dedup _)
      (List.nodup_dedup _) (by ext a; simp; tauto)
  exact List.eq_of_perm_of_sorted
    (((List.perm_insertionSort r _).trans hperm).trans
      (List.perm_insertionSort r _).symm)
    (List.sorted_insertionSort r _) (List.sorted_insertionSort r _)

/-- C4: the batch selected by the recursive find-nodes engine is exactly the
pipeline the claim describes — known nodes (received ∪ routing table) by
ascending XOR distance to the target, minus unresponsive, closest
`bucket_size`, minus queried and in-flight, up to three — hence it never
contains an unresponsive, already-queried or in-flight node, its members are
known nodes, and it has size at most three. -/
theorem get_unqueried_node_ids_spec (bucket_size target : Nat)
    (routing_table received unresponsive queried in_flight : List Nat) :
    get_unqueried_node_ids bucket_size target routing_table received
        unresponsive queried in_flight =
      recursive_lookup_batch_spec bucket_size target routing_table received
        unresponsive queried in_flight ∧
    (get_unqueried_node_ids bucket_size target routing_table received
        unresponsive queried in_flight).length ≤ 3 ∧
    ∀ n ∈ get_unqueried_node_ids bucket_size target routing_table received
        unresponsive queried in_flight,
      (n ∈ routing_table ∨ n ∈ received) ∧
        n ∉ unresponsive ∧ n ∉ queried ∧ n ∉ in_flight := by
  refine ⟨?_, ?_, ?_⟩
  · have hp : (fun n => decide (¬ (n ∈ queried ∨ n ∈ in_flight)))
        = fun n => decide (n ∉ queried ∧ n ∉ in_flight) := by
      funext n
      exact decide_eq_decide.mpr (by tauto)
    simp only [get_unqueried_node_ids, recursive_lookup_batch_spec,
      iter_closest_nodes]
    rw [iter_closest_nodes_comm target routing_table received, hp]
  · simp only [get_unqueried_node_ids]
    rw [List.length_take]
    exact min_le_left _ _
  · intro n hn
    simp only [get_unqueried_node_ids, iter_closest_nodes] at hn
    have h1 := List.mem_of_mem_take hn
    obtain ⟨h2, hq⟩ := List.mem_filter.mp h1
    have h3 := List.mem_of_mem_take h2
    obtain ⟨h4, hu⟩ := List.mem_filter.mp h3
    have h5 : n ∈ (routing_table ++ received).dedup :=
      (List.mem_insertionSort _).mp h4
    have h6 := List.mem_append.mp (List.mem_dedup.mp h5)
    have hq' := of_decide_eq_true hq
    push_neg at hq'
    exact ⟨h6, of_decide_eq_true hu, hq'.1, hq'.2⟩

/-- Witness for C4 at a concrete state: nodes 1 and 2 are known, node 2 is
unresponsive, so the batch is `[1]` and node 1 is known, responsive, not yet
queried and not in flight. -/
theorem get_unqueried_node_ids_spec_witness :
    get_unqueried_node_ids 16 0 [1, 2] [] [2] [] [] =
        recursive_lookup_batch_spec 16 0 [1, 2] [] [2] [] [] ∧
      ((1 ∈ ([1, 2] : List Nat) ∨ 1 ∈ ([] : List Nat)) ∧
        1 ∉ ([2] : List Nat) ∧ 1 ∉ ([] : List Nat) ∧ 1 ∉ ([] : List Nat)) :=
  ⟨(get_unqueried_node_ids_spec 16 0 [1, 2] [] [2] [] []).1,
    (get_unqueried_node_ids_spec 16 0 [1, 2] [] [2] [] []).2.2 1 (by decide)⟩

/-- Rebinding one key of the shared cache changes only that key. -/
theorem cache_lookup_cache_set (cache : List (Nat × Nat)) (m t n : Nat) :
    cache_lookup (cache_set cache m t) n =
      if m = n then some t else cache_lookup cache n := by
  by_cases h : m = n
  · subst h
    simp [cache_lookup, cache_set, List.find?_cons]
  · have hpred : (fun a : Nat × Nat => !decide (a.1 = m) && decide (a.1 = n))
        = fun a : Nat × Nat => decide (a.1 = n) := by
      funext a
      by_cases ham : a.1 = m
      · simp [ham, h]
      · simp [ham]
    simp [cache_lookup, cache_set, List.find?_cons, h, hpred]

/-- The shared cache after an event sequence holds, for each node, the
timestamp of its last failure, defaulting to the prior binding. -/
theorem cache_lookup_rfn_foldl (events : List LookupEvent) (s : RFNState)
    (n : Nat) :
    cache_lookup ((events.foldl rfn_step s).cache) n =
      last_fail_time n events (cache_lookup s.cache n) := by
  induction events generalizing s with
  | nil => rfl
  | cons e es ih =>
    rw [List.foldl_cons, ih]
    cases e with
    | fail m t =>
      rw [last_fail_time]
      exact congrArg _ (cache_lookup_cache_set s.cache m t n)
    | cancel m => rfl

/-- When no failure of `node_id` occurs, its cache binding is untouched. -/
theorem last_fail_time_of_no_fail (n : Nat) (events : List LookupEvent)
    (h : ∀ t, LookupEvent.fail n t ∉ events) :
    ∀ dflt, last_fail_time n events dflt = dflt := by
  induction events with
  | nil => intro dflt; rfl
  | cons e es ih =>
    intro dflt
    have hes : ∀ t, LookupEvent.fail n t ∉ es := fun t ht =>
      h t (List.mem_cons_of_mem _ ht)
    cases e with
    | fail m t =>
      have hm : ¬ m = n := fun hmn => h t (by rw [hmn]; exact List.mem_cons_self _ _)
      rw [last_fail_time, if_neg hm]
      exact ih hes dflt
    | cancel m =>
      rw [last_fail_time]
      exact ih hes dflt

/-- When some failure of `node_id` occurs, the cache ends up bound to one of
its failure timestamps (the last one), whatever the default. -/
theorem last_fail_time_of_fail (n : Nat) (events : List LookupEvent)
    (h : ∃ t, LookupEvent.fail n t ∈ events) :
    ∃ t2, LookupEvent.fail n t2 ∈ events ∧
      ∀ dflt, last_fail_time n events dflt = some t2 := by
  induction events with
  | nil => obtain ⟨t, ht⟩ := h; cases ht
  | cons e es ih =>
    by_cases hes : ∃ t, LookupEvent.fail n t ∈ es
    · obtain ⟨t2, ht2, hlf⟩ := ih hes
      refine ⟨t2, List.mem_cons_of_mem _ ht2, fun dflt => ?_⟩
      cases e with
      | fail m t => rw [last_fail_time]; exact hlf _
      | cancel m => rw [last_fail_time]; exact hlf _
    · push_neg at hes
      obtain ⟨t, ht⟩ := h
      rcases List.mem_cons.mp ht with he | ht'
      · refine ⟨t, by rw [he]; exact List.mem_cons_self _ _, fun dflt => ?_⟩
        rw [← he, last_fail_time, if_pos rfl]
        exact last_fail_time_of_no_fail n es hes _
      · exact absurd ht' (hes t)

/-- Membership of the invocation-local unresponsive set grows exactly by the
failed and the cancelled peers of the processed events. -/
theorem mem_unresponsive_foldl (events : List LookupEvent) (s : RFNState)
    (n : Nat) :
    n ∈ (events.foldl rfn_step s).unresponsive ↔
      n ∈ s.unresponsive ∨ (∃ t, LookupEvent.fail n t ∈ events) ∨
        LookupEvent.cancel n ∈ events := by
  induction events generalizing s with
  | nil => simp
  | cons e es ih =>
    rw [List.foldl_cons, ih]
    cases e with
    | fail m t =>
      simp only [rfn_step, List.mem_cons, LookupEvent.fail.injEq,
        reduceCtorEq, exists_or, exists_eq_right_right, false_or, or_false,
        exists_and_right, exists_eq_right]
      tauto
    | cancel m =>
      simp only [rfn_step, List.mem_cons, LookupEvent.cancel.injEq,
        reduceCtorEq, exists_or, false_or, or_false]
      tauto

/-- The initial unresponsive set holds the local node id and the
fresh-within-300-seconds entries of the shared cache. -/
theorem mem_rfn_init (local_node_id now n : Nat) (cache0 : List (Nat × Nat)) :
    n ∈ (rfn_init local_node_id now cache0).unresponsive ↔
      n = local_node_id ∨ ∃ p ∈ cache0, p.1 = n ∧ now - p.2 < 300 := by
  simp only [rfn_init, List.mem_cons, List.mem_map, List.mem_filter]
  constructor
  · rintro (rfl | ⟨p, ⟨hp, hfresh⟩, rfl⟩)
    · exact Or.inl rfl
    · exact Or.inr ⟨p, hp, rfl, of_decide_eq_true hfresh⟩
  · rintro (rfl | ⟨p, hp, rfl, hfresh⟩)
    · exact Or.inl rfl
    · exact Or.inr ⟨p, ⟨hp, decide_eq_true hfresh⟩, rfl⟩

/-- C5 counterexample: after one invocation whose only lookup was cancelled
(`trio.Cancelled`, `network.py:159-163`), node 5 is in the unresponsive set
although it is not the local node (0), did not fail with a timeout,
validation error or missing endpoint, and was not in the shared cache — so
the unresponsive set is not "exactly" the union the claim states. -/
theorem rfn_cancel_counterexample :
    5 ∈ (rfn_run 0 1000 [] [.cancel 5]).unresponsive ∧
      (5 : Nat) ≠ 0 ∧
      (∀ t, LookupEvent.fail 5 t ∉ ([.cancel 5] : List LookupEvent)) ∧
      cache_lookup [] 5 = none := by
  refine ⟨by decide, by decide, ?_, rfl⟩
  intro t ht
  rcases List.mem_cons.mp ht with h | h
  · cases h
  · cases h

/-- C5 (amended): throughout one invocation of the recursive find-nodes
engine, the unresponsive set contains exactly the local node id, the peers of
this invocation whose lookup failed (timeout, validation error or missing
endpoint), the peers whose lookup was cancelled (which the source also adds,
without stamping the shared cache), and the peers whose shared-cache
timestamp was less than 300 seconds old when the invocation started; and
every failing peer is recorded in the shared cache with the time of its (last)
failure. -/
theorem rfn_unresponsive_spec (local_node_id now : Nat)
    (cache0 : List (Nat × Nat)) (events : List LookupEvent) (n : Nat) :
    (n ∈ (rfn_run local_node_id now cache0 events).unresponsive ↔
        n = local_node_id ∨ (∃ t, LookupEvent.fail n t ∈ events) ∨
          LookupEvent.cancel n ∈ events ∨
          ∃ p ∈ cache0, p.1 = n ∧ now - p.2 < 300) ∧
      ∀ t, LookupEvent.fail n t ∈ events →
        ∃ t2, LookupEvent.fail n t2 ∈ events ∧
          cache_lookup ((rfn_run local_node_id now cache0 events).cache) n =
            some t2 := by
  constructor
  · rw [rfn_run, mem_unresponsive_foldl, mem_rfn_init]
    constructor
    · rintro ((rfl | hc) | hf | hcan)
      · exact Or.inl rfl
      · exact Or.inr (Or.inr (Or.inr hc))
      · exact Or.inr (Or.inl hf)
      · exact Or.inr (Or.inr (Or.inl hcan))
    · rintro (rfl | hf | hcan | hc)
      · exact Or.inl (Or.inl rfl)
      · exact Or.inr (Or.inl hf)
      · exact Or.inr (Or.inr hcan)
      · exact Or.inl (Or.inr hc)
  · intro t ht
    obtain ⟨t2, ht2, hlf⟩ := last_fail_time_of_fail n events ⟨t, ht⟩
    refine ⟨t2, ht2, ?_⟩
    rw [rfn_run, cache_lookup_rfn_foldl]
    exact hlf _

/-- Witness for C5's amended claim: one failing lookup of node 7 at time 50
lands node 7 in the unresponsive set and stamps the shared cache with its
failure time. -/
theorem rfn_unresponsive_spec_witness :
    (7 ∈ (rfn_run 0 100 [] [.fail 7 50]).unresponsive) ∧
      ∃ t2, LookupEvent.fail 7 t2 ∈ ([.fail 7 50] : List LookupEvent) ∧
        cache_lookup ((rfn_run 0 100 [] [.fail 7 50]).cache) 7 = some t2 :=
  ⟨(rfn_unresponsive_spec 0 100 [] [.fail 7 50] 7).1.mpr
      (Or.inr (Or.inl ⟨50, by decide⟩)),
    (rfn_unresponsive_spec 0 100 [] [.fail 7 50] 7).2 50 (by decide)⟩

/-- Looking a key up in the Python-dict merge `{**base, **minimal}` gives
minimal's binding when minimal has one, else base's: the new value wins on any
conflicting key. -/
theorem kv_lookup_dict_merge (base minimal : List (List Nat × List Nat))
    (k : List Nat) :
    kv_lookup (dict_merge base minimal) k =
      (kv_lookup minimal k).or (kv_lookup base k) := by
  unfold kv_lookup dict_merge
  rw [List.find?_append, List.find?_map]
  have hcomp : ((fun p : List Nat × List Nat => decide (p.1 = k)) ∘ fun p =>
      match kv_lookup minimal p.1 with
      | some v => (p.1, v)
      | none => p) = fun p : List Nat × List Nat => decide (p.1 = k) := by
    funext p
    obtain ⟨k₁, v₁⟩ := p
    simp only [Function.comp]
    have hm1 : (match kv_lookup minimal k₁ with
        | some v => (k₁, v)
        | none => (k₁, v₁) : List Nat × List Nat).1 = k₁ := by
      cases kv_lookup minimal k₁ <;> rfl
    rw [hm1]
  rw [hcomp]
  clear hcomp
  cases hb : base.find? (fun p => decide (p.1 = k)) with
  | some p₀ =>
    have hk : p₀.1 = k := by
      have h1 := List.find?_some hb
      simp only [decide_eq_true_eq] at h1
      exact h1
    cases hm : minimal.find? (fun p => decide (p.1 = k)) with
    | some q => simp [kv_lookup, hk, hm, Option.or]
    | none => simp [kv_lookup, hk, hm, Option.or]
  | none =>
    have hbase : kv_lookup base k = none := by rw [kv_lookup, hb]; rfl
    have hfind : (minimal.filter
          fun p => decide (kv_lookup base p.1 = none)).find?
            (fun p => decide (p.1 = k)) =
        minimal.find? fun p => decide (p.1 = k) := by
      induction minimal with
      | nil => rfl
      | cons q l ih =>
        rw [List.filter_cons]
        by_cases hg : kv_lookup base q.1 = none
        · rw [if_pos (decide_eq_true hg), List.find?_cons, List.find?_cons]
          cases hd : decide (q.1 = k) with
          | true => rfl
          | false => exact ih
        · have hqk : ¬ q.1 = k := fun hh => hg (by rw [hh]; exact hbase)
          rw [if_neg (by simp [hg]), List.find?_cons, decide_eq_false hqk]
          exact ih
    rw [hfind]
    cases minimal.find? (fun p => decide (p.1 = k)) <;> rfl

/-- The `any`-test of `app.py:74-76` is false exactly when the stored record
already carries every minimal pair unchanged. -/
theorem needs_update_eq_false_iff (base minimal : List (List Nat × List Nat)) :
    needs_update base minimal = false ↔
      ∀ p ∈ minimal, kv_lookup base p.1 = some p.2 := by
  unfold needs_update
  rw [List.any_eq_false]
  constructor
  · intro h p hp
    have hph := h p hp
    cases hm : kv_lookup base p.1 with
    | none => rw [hm] at hph; simp at hph
    | some v =>
      rw [hm] at hph
      simp only [decide_eq_true_eq, not_not] at hph
      rw [hph]
  · intro h p hp
    rw [h p hp]
    simp

/-- C6: with no stored record, `get_local_enr` returns the minimal ENR signed
at sequence number 1.  With a stored record that already carries the minimal
pairs `{id: b"v4", secp256k1: pubkey, udp: port}` with identical values, it
returns the stored record unchanged (same sequence number, pairs and
signature).  Otherwise it returns a newly signed ENR at the stored sequence
number plus one, whose pairs are the stored pairs merged with the minimal
pairs, the minimal (new) value winning on any conflicting key. -/
theorem get_local_enr_spec (sign : Nat → List (List Nat × List Nat) → List Nat)
    (pubkey port : List Nat) :
    get_local_enr sign pubkey port none =
        ⟨1, minimal_kv pubkey port, sign 1 (minimal_kv pubkey port)⟩ ∧
      ∀ base_enr : SignedENR,
        (needs_update base_enr.kv (minimal_kv pubkey port) = false →
            get_local_enr sign pubkey port (some base_enr) = base_enr) ∧
          (needs_update base_enr.kv (minimal_kv pubkey port) = false ↔
            ∀ p ∈ minimal_kv pubkey port,
              kv_lookup base_enr.kv p.1 = some p.2) ∧
          (needs_update base_enr.kv (minimal_kv pubkey port) = true →
            get_local_enr sign pubkey port (some base_enr) =
              ⟨base_enr.seq + 1,
                dict_merge base_enr.kv (minimal_kv pubkey port),
                sign (base_enr.seq + 1)
                  (dict_merge base_enr.kv (minimal_kv pubkey port))⟩) ∧
          ∀ k, kv_lookup (dict_merge base_enr.kv (minimal_kv pubkey port)) k =
            (kv_lookup (minimal_kv pubkey port) k).or
              (kv_lookup base_enr.kv k) := by
  refine ⟨rfl, fun base_enr => ⟨?_, needs_update_eq_false_iff _ _, ?_, ?_⟩⟩
  · intro h
    simp [get_local_enr, h]
  · intro h
    simp [get_local_enr, h]
  · intro k
    exact kv_lookup_dict_merge base_enr.kv (minimal_kv pubkey port) k

/-- Witness for C6: with `sign` hashing to the sequence number alone, a stored
record that already carries all minimal pairs is returned verbatim, and a
stored record missing them is re-signed at sequence 5 with the merged
pairs. -/
theorem get_local_enr_spec_witness :
    get_local_enr (fun n _ => [n]) [1] [2]
        (some ⟨4, minimal_kv [1] [2], [9]⟩) = ⟨4, minimal_kv [1] [2], [9]⟩ ∧
      get_local_enr (fun n _ => [n]) [1] [2] (some ⟨4, [], [9]⟩) =
        ⟨5, dict_merge [] (minimal_kv [1] [2]),
          [5]⟩ := by
  constructor
  · exact ((get_local_enr_spec (fun n _ => [n]) [1] [2]).2
      ⟨4, minimal_kv [1] [2], [9]⟩).1 (by decide)
  · exact ((get_local_enr_spec (fun n _ => [n]) [1] [2]).2
      ⟨4, [], [9]⟩).2.2.1 (by decide)

end Ddht